import Mathlib

/-!
Shallow embedding of the London_Events ingestion pipeline, checked against its
specification.

Source files embedded here:
  app/config.py                     (Settings)
  app/data_sources/base.py          (EventData, BaseDataSource.validate_event,
                                     the per-adapter validate-then-append fetch loop)
  app/services/sellout_detector.py  (SelloutDetector.determine_status,
                                     SelloutDetector._is_selling_fast_by_rate)
  app/services/event_aggregator.py  (EventAggregator._process_events, _create_event,
                                     _update_event, _find_duplicate,
                                     _calculate_availability_percentage,
                                     _update_source_tracking)
  app/services/sellout_monitor.py   (SelloutMonitor.check_for_alerts,
                                     SelloutMonitor.should_generate_alert)

Modelling conventions:
  - Python `datetime` values are rationals (seconds on an absolute time axis);
    `timedelta.total_seconds()` is plain subtraction.  `datetime.utcnow()` becomes an
    explicit `now` argument.
  - Python floats are rationals.  Ticket counts are naturals (`Optional[int]` fields
    holding non-negative counts become `Option Nat`).
  - Dynamically typed fields that the code null-checks are `Option` types.
  - Python truthiness (`or` defaulting, `if x:` guards) is embedded explicitly by the
    `pyTruthy*` / `pyOr*` helpers below; `None` is falsy, an empty string is falsy and
    a zero number is falsy, while a datetime is truthy whenever present.
  - `difflib.SequenceMatcher.ratio` (standard-library code, outside this repository)
    is an explicit function parameter `sim` of the deduplication functions.
  - The database session is a pure state: a list of `Event` rows plus a list of
    `AvailabilityHistoryRow` rows; opaque columns no claim touches (slug, coordinates,
    currency, images, raw payload, popularity metadata) are omitted from the row type.
-/

/-- `EventStatus` from `app/models/database.py`. -/
inductive EventStatus where
  | upcoming
  | on_sale
  | selling_fast
  | sold_out
  | cancelled
  deriving DecidableEq, Repr

/-- The sellout-detection knobs of `Settings` in `app/config.py`
(`sellout_threshold_percentage: int = 10`, `low_availability_threshold: int = 50`),
plus the two alert minima read by `sellout_monitor.py`.

Modelled from the spec: `sellout_alert_min_selling_fast` and
`sellout_alert_min_sold_out` are read from `settings` by
`SelloutMonitor.should_generate_alert` but are not declared in `app/config.py`;
the spec's configuration section gives them as "minimum selling-fast count to alert
(default 1), minimum sold-out count to alert (default 3)". -/
structure Settings where
  sellout_threshold_percentage : Nat := 10
  low_availability_threshold : Nat := 50
  sellout_alert_min_selling_fast : Nat := 1
  sellout_alert_min_sold_out : Nat := 3
  deriving DecidableEq, Repr

/-- The default settings (no environment overrides). -/
def defaultSettings : Settings := {}

/-- Python truthiness of an optional string: `None` and `""` are falsy. -/
def pyTruthyStr : Option String → Bool
  | some s => !s.isEmpty
  | none => false

/-- Python truthiness of an optional rational number: `None` and `0` are falsy. -/
def pyTruthyNum : Option ℚ → Bool
  | some q => !(q == 0)
  | none => false

/-- Python truthiness of an optional natural number: `None` and `0` are falsy. -/
def pyTruthyNat : Option Nat → Bool
  | some n => !(n == 0)
  | none => false

/-- Python `new or old` for optional strings. -/
def pyOrStr (new old : Option String) : Option String :=
  if pyTruthyStr new then new else old

/-- Python `new or old` for optional rationals (prices). -/
def pyOrNum (new old : Option ℚ) : Option ℚ :=
  if pyTruthyNum new then new else old

/-- Python `new or old` for optional naturals (ticket counts). -/
def pyOrNat (new old : Option Nat) : Option Nat :=
  if pyTruthyNat new then new else old

/-- Python `new or old` for optional datetimes: a datetime object is always truthy,
so the old value survives only when the new one is `None`. -/
def pyOrDate (new old : Option ℚ) : Option ℚ :=
  if new.isSome then new else old

/-- Python `os and (os in spellings)` for an optional status string. -/
def osIn (on_sale_status : Option String) (spellings : List String) : Bool :=
  pyTruthyStr on_sale_status && spellings.contains (on_sale_status.getD "")

/-- `EventData` from `app/data_sources/base.py` — the normalized record every adapter
produces.  The constructor's required parameters (`title`, `start_date`,
`source_name`, `source_id`) are still `Option` here: Python is dynamically typed and
`BaseDataSource.validate_event` exists precisely to reject records where an adapter
passed `None` for one of them. -/
structure EventData where
  title : Option String := none
  description : Option String := none
  start_date : Option ℚ := none
  end_date : Option ℚ := none
  venue_name : Option String := none
  venue_address : Option String := none
  ticket_url : Option String := none
  price_min : Option ℚ := none
  price_max : Option ℚ := none
  on_sale_date : Option ℚ := none
  on_sale_status : Option String := none
  tickets_available : Option Nat := none
  total_tickets : Option Nat := none
  image_url : Option String := none
  source_name : Option String := none
  source_id : Option String := none
  deriving DecidableEq, Repr

/-- The `Event` row from `app/models/database.py`, restricted to the columns the
embedded operations read or write.  `id` is the database-assigned primary key. -/
structure Event where
  id : Nat := 0
  title : Option String := none
  description : Option String := none
  start_date : Option ℚ := none
  end_date : Option ℚ := none
  venue_name : Option String := none
  venue_address : Option String := none
  ticket_url : Option String := none
  price_min : Option ℚ := none
  price_max : Option ℚ := none
  on_sale_date : Option ℚ := none
  on_sale_status : Option String := none
  status : EventStatus := .upcoming
  tickets_available : Option Nat := none
  total_tickets : Option Nat := none
  availability_percentage : Option ℚ := none
  last_availability_check : Option ℚ := none
  source_name : Option String := none
  source_id : Option String := none
  image_url : Option String := none
  updated_at : Option ℚ := none
  deriving DecidableEq, Repr

/-- `BaseDataSource.validate_event` (`app/data_sources/base.py`):
`all(field is not None for field in [title, start_date, source_name, source_id])`. -/
def validate_event (event : EventData) : Bool :=
  event.title.isSome && event.start_date.isSome &&
    event.source_name.isSome && event.source_id.isSome

/-- The sold-out spellings checked by `SelloutDetector.determine_status`. -/
def soldOutSpellings : List String := ["soldout", "sold_out", "sold-out"]

/-- The cancellation spellings checked by `SelloutDetector.determine_status`. -/
def cancelledSpellings : List String := ["cancelled", "canceled"]

/-- `SelloutDetector._is_selling_fast_by_rate` (`app/services/sellout_detector.py`).
The two `timedelta` arguments are given in seconds. -/
def _is_selling_fast_by_rate (current_available previous_available : Nat)
    (time_since_check time_until_event : ℚ) : Bool :=
  if time_since_check == 0 then false
  else
    let tickets_sold : ℚ := (previous_available : ℚ) - (current_available : ℚ)
    let days_since_check : ℚ := time_since_check / 86400
    if days_since_check == 0 then false
    else
      let tickets_per_day : ℚ := tickets_sold / days_since_check
      let days_until_event : ℚ := time_until_event / 86400
      if days_until_event ≤ 0 then false
      else if 0 < tickets_per_day then
        let days_to_sellout : ℚ := (current_available : ℚ) / tickets_per_day
        if days_to_sellout ≤ 7 then true
        else if days_to_sellout < days_until_event * (1 / 2) then true
        else false
      else false

/-- The third rule of `determine_status`: both counts known, `total_tickets > 0`,
and either the availability percentage is at or below the configured threshold or the
raw count is at or below the configured absolute threshold. -/
def percentageRuleFires (s : Settings) (tickets_available total_tickets : Option Nat) :
    Bool :=
  match tickets_available, total_tickets with
  | some a, some t =>
      if 0 < t then
        let availability_percentage : ℚ := ((a : ℚ) / (t : ℚ)) * 100
        decide (availability_percentage ≤ (s.sellout_threshold_percentage : ℚ)) ||
          decide (a ≤ s.low_availability_threshold)
      else false
  | _, _ => false

/-- The fourth rule of `determine_status`: all four historical signals present and
`_is_selling_fast_by_rate` fires on `now - last_check` and `event_date - now`. -/
def rateRuleFires (now : ℚ) (tickets_available previous_availability : Option Nat)
    (last_check event_date : Option ℚ) : Bool :=
  match previous_availability, tickets_available, last_check, event_date with
  | some previous, some current, some checked, some event_date =>
      _is_selling_fast_by_rate current previous (now - checked) (event_date - now)
  | _, _, _, _ => false

/-- The trailing `if on_sale_status:` chain of `determine_status`. -/
def statusFromOnSale (on_sale_status : Option String) : EventStatus :=
  if pyTruthyStr on_sale_status then
    if osIn on_sale_status ["onsale", "on_sale"] then .on_sale
    else if osIn on_sale_status ["presale", "pre_sale"] then .on_sale
    else if osIn on_sale_status ["offsale", "off_sale"] then .upcoming
    else .upcoming
  else .upcoming

/-- `SelloutDetector.determine_status` (`app/services/sellout_detector.py`): the
first-match-wins decision chain.  `now` stands for `datetime.utcnow()`. -/
def determine_status (s : Settings) (now : ℚ)
    (tickets_available total_tickets : Option Nat)
    (on_sale_status : Option String)
    (previous_availability : Option Nat)
    (last_check event_date : Option ℚ) : EventStatus :=
  if tickets_available == some 0 || osIn on_sale_status soldOutSpellings then
    .sold_out
  else if osIn on_sale_status cancelledSpellings then
    .cancelled
  else if percentageRuleFires s tickets_available total_tickets then
    .selling_fast
  else if rateRuleFires now tickets_available previous_availability
      last_check event_date then
    .selling_fast
  else
    statusFromOnSale on_sale_status

/-- `EventAggregator._calculate_availability_percentage`
(`app/services/event_aggregator.py`).  The `not tickets_available or not
total_tickets` guard uses Python truthiness, so it catches `None` and `0` alike;
the subsequent `total_tickets == 0` branch is kept verbatim from the source. -/
def _calculate_availability_percentage (tickets_available total_tickets : Option Nat) :
    Option ℚ :=
  if !pyTruthyNat tickets_available || !pyTruthyNat total_tickets then none
  else if total_tickets == some 0 then some 0
  else some (((tickets_available.getD 0 : ℚ) / (total_tickets.getD 0 : ℚ)) * 100)

/-- The per-candidate test inside `EventAggregator._find_duplicate`'s loop: title
similarity (case-insensitive) strictly above `0.85` and venue similarity strictly
above `0.75`, venue similarity being `1.0` unless both sides have a truthy venue
name.  `sim` stands for `difflib.SequenceMatcher(None, a, b).ratio()`. -/
def dupCandidateMatches (sim : String → String → ℚ) (event_data : EventData)
    (existing : Event) : Bool :=
  let title_similarity :=
    sim (event_data.title.getD "").toLower (existing.title.getD "").toLower
  let venue_similarity : ℚ :=
    if pyTruthyStr event_data.venue_name && pyTruthyStr existing.venue_name then
      sim (event_data.venue_name.getD "").toLower (existing.venue_name.getD "").toLower
    else 1
  decide (title_similarity > 85 / 100) && decide (venue_similarity > 75 / 100)

/-- `EventAggregator._find_duplicate` (`app/services/event_aggregator.py`): filter the
store to events with exactly the record's `start_date`, then return the first
candidate passing `dupCandidateMatches`.  (On a record whose `title` is `None` the
Python code would raise inside the loop; the embedding totalizes that case, and every
theorem about this function assumes the title is present.) -/
def _find_duplicate (sim : String → String → ℚ) (event_data : EventData)
    (events : List Event) : Option Event :=
  let same_date_events := events.filter (fun e => e.start_date == event_data.start_date)
  same_date_events.find? (fun existing => dupCandidateMatches sim event_data existing)

/-- `EventAggregator._create_event` (`app/services/event_aggregator.py`), minus the
columns omitted from the row type.  `newId` is the primary key the database assigns
on insert; `now` stands for `datetime.utcnow()`. -/
def _create_event (s : Settings) (now : ℚ) (newId : Nat) (event_data : EventData) :
    Event :=
  { id := newId
    title := event_data.title
    description := event_data.description
    start_date := event_data.start_date
    end_date := event_data.end_date
    venue_name := event_data.venue_name
    venue_address := event_data.venue_address
    ticket_url := event_data.ticket_url
    price_min := event_data.price_min
    price_max := event_data.price_max
    on_sale_date := event_data.on_sale_date
    on_sale_status := event_data.on_sale_status
    status := determine_status s now event_data.tickets_available
      event_data.total_tickets event_data.on_sale_status none none none
    tickets_available := event_data.tickets_available
    total_tickets := event_data.total_tickets
    availability_percentage := _calculate_availability_percentage
      event_data.tickets_available event_data.total_tickets
    last_availability_check := some now
    source_name := event_data.source_name
    source_id := event_data.source_id
    image_url := event_data.image_url
    updated_at := none }

/-- `EventAggregator._update_event` (`app/services/event_aggregator.py`): required
scalars are assigned unconditionally, the optional fields via Python `or`, and the
availability block runs only under `if event_data.tickets_available is not None`. -/
def _update_event (s : Settings) (now : ℚ) (event : Event) (event_data : EventData) :
    Event :=
  let event :=
    { event with
      title := event_data.title
      description := pyOrStr event_data.description event.description
      start_date := event_data.start_date
      end_date := event_data.end_date
      venue_name := pyOrStr event_data.venue_name event.venue_name
      venue_address := pyOrStr event_data.venue_address event.venue_address
      ticket_url := pyOrStr event_data.ticket_url event.ticket_url
      price_min := pyOrNum event_data.price_min event.price_min
      price_max := pyOrNum event_data.price_max event.price_max
      on_sale_date := pyOrDate event_data.on_sale_date event.on_sale_date
      on_sale_status := pyOrStr event_data.on_sale_status event.on_sale_status
      image_url := pyOrStr event_data.image_url event.image_url
      updated_at := some now }
  if event_data.tickets_available.isSome then
    let new_total := pyOrNat event_data.total_tickets event.total_tickets
    { event with
      tickets_available := event_data.tickets_available
      total_tickets := new_total
      availability_percentage := _calculate_availability_percentage
        event_data.tickets_available new_total
      last_availability_check := some now
      status := determine_status s now event_data.tickets_available new_total
        event_data.on_sale_status none none none }
  else event

/-- One availability-transition row.

Modelled from the spec: the `AvailabilityHistory` model is imported and queried by
`app/services/sellout_monitor.py` but no such class exists in
`app/models/database.py`, and no code under the repository writes such a row.  The
spec's data model gives its columns as "event reference, previous Status, new
Status, ticket counts, recorded_at". -/
structure AvailabilityHistoryRow where
  event_id : Nat
  previous_status : EventStatus
  new_status : EventStatus
  tickets_available : Option Nat := none
  recorded_at : ℚ
  deriving DecidableEq, Repr

/-- The persistent state the ingestion pipeline acts on: the `events` table and the
`availability_history` table. -/
structure IngestState where
  events : List Event := []
  history : List AvailabilityHistoryRow := []
  deriving DecidableEq, Repr

/-- Replace the first element satisfying `p` by its image under `f` (the in-place
mutation of the row returned by `query(...).first()`). -/
def replaceFirst (p : α → Bool) (f : α → α) : List α → List α
  | [] => []
  | x :: xs => if p x then f x :: xs else x :: replaceFirst p f xs

/-- The provenance lookup of `_process_events`: `Event.source_name == source_name
AND Event.source_id == event_data.source_id`. -/
def sameProvenance (source_name : String) (event_data : EventData) (e : Event) : Bool :=
  e.source_name == some source_name && e.source_id == event_data.source_id

/-- The body of `EventAggregator._process_events`' loop for one record: update the
provenance match in place if it exists, otherwise skip cross-provider duplicates,
otherwise insert a freshly classified event.  Returns the new state and the number
of events this record adds to `saved_count`.  `freshId` models the autoincrement
key as one more than the largest key in the table. -/
def processOneEvent (sim : String → String → ℚ) (s : Settings) (now : ℚ)
    (source_name : String) (st : IngestState) (event_data : EventData) :
    IngestState × Nat :=
  match st.events.find? (sameProvenance source_name event_data) with
  | some _ =>
      let updated := replaceFirst (sameProvenance source_name event_data)
        (fun e => _update_event s now e event_data) st.events
      ({ st with events := updated }, 1)
  | none =>
      match _find_duplicate sim event_data st.events with
      | some _ => (st, 0)
      | none =>
          let freshId := (st.events.map (·.id)).foldr max 0 + 1
          ({ st with events := st.events ++ [_create_event s now freshId event_data] }, 1)

/-- `EventAggregator._process_events` (`app/services/event_aggregator.py`): fold the
single-record step over the batch, accumulating `saved_count`. -/
def _process_events (sim : String → String → ℚ) (s : Settings) (now : ℚ)
    (source_name : String) (events : List EventData) (st : IngestState) :
    IngestState × Nat :=
  events.foldl
    (fun acc event_data =>
      let step := processOneEvent sim s now source_name acc.1 event_data
      (step.1, acc.2 + step.2))
    (st, 0)

/-- The `DataSource` row from `app/models/database.py`, restricted to the columns
`_update_source_tracking` touches. -/
structure DataSourceRow where
  name : String
  source_type : String
  is_enabled : Bool := true
  last_successful_fetch : Option ℚ := none
  last_fetch_attempt : Option ℚ := none
  last_error : Option String := none
  events_fetched_count : Nat := 0
  average_fetch_time : Option ℚ := none
  deriving DecidableEq, Repr

/-- `EventAggregator._update_source_tracking` (`app/services/event_aggregator.py`)
for one source: create the row if absent, stamp the attempt, and on success stamp
the success time, add the fetched count, clear the error and two-point-average the
fetch latency; on failure only store the error text. -/
def _update_source_tracking (now : ℚ) (existing : Option DataSourceRow)
    (source_name source_type : String) (success : Bool) (events_count : Nat)
    (fetch_duration : ℚ) (error : Option String) : DataSourceRow :=
  let source := existing.getD { name := source_name, source_type := source_type }
  let source := { source with last_fetch_attempt := some now }
  if success then
    { source with
      last_successful_fetch := some now
      events_fetched_count := source.events_fetched_count + events_count
      last_error := none
      average_fetch_time :=
        if pyTruthyNum source.average_fetch_time then
          some ((source.average_fetch_time.getD 0 + fetch_duration) / 2)
        else some fetch_duration }
  else
    { source with last_error := error }

/-- The validate-then-append loop every adapter's `fetch_events` runs over its parsed
records (e.g. `if event and self.validate_event(event): events.append(event)` in
`app/data_sources/eventbrite.py` and each scraper): records failing
`validate_event` are dropped without raising. -/
def adapterCollectValid (parsed : List EventData) : List EventData :=
  parsed.filter validate_event

/-- One source's iteration of `EventAggregator.fetch_all_events`, on the success
path: the adapter's fetch returned `parsed` records (invalid ones dropped by the
adapter loop, which raises nothing), the batch is processed, and the source is
tracked with `success=True`.  Returns the new ingest state, the tracking row and
`saved_count`. -/
def fetchOneSourceOk (sim : String → String → ℚ) (s : Settings) (now : ℚ)
    (source_name source_type : String) (parsed : List EventData)
    (st : IngestState) (tracking : Option DataSourceRow) (fetch_duration : ℚ) :
    IngestState × DataSourceRow × Nat :=
  let events := adapterCollectValid parsed
  let step := _process_events sim s now source_name events st
  (step.1,
   _update_source_tracking now tracking source_name source_type true
     events.length fetch_duration none,
   step.2)

/-- `AlertResult` from `app/services/sellout_monitor.py` (the `checked_at` stamp is
omitted — no claim reads it). -/
structure AlertResult where
  newly_selling_fast : List Event := []
  newly_sold_out : List Event := []
  deriving DecidableEq, Repr

/-- Insert into a list kept in descending `recorded_at` order (stable). -/
def insertRecordedDesc (row : AvailabilityHistoryRow) :
    List AvailabilityHistoryRow → List AvailabilityHistoryRow
  | [] => [row]
  | y :: ys =>
      if row.recorded_at ≥ y.recorded_at then row :: y :: ys
      else y :: insertRecordedDesc row ys

/-- The `ORDER BY recorded_at DESC` of `check_for_alerts`' query, as a stable
insertion sort (the SQL order among equal timestamps is unspecified; the embedding
keeps the table order). -/
def sortRecordedDesc : List AvailabilityHistoryRow → List AvailabilityHistoryRow
  | [] => []
  | x :: xs => insertRecordedDesc x (sortRecordedDesc xs)

/-- The three id-sets `check_for_alerts` accumulates while walking the transitions
newest-first. -/
structure ClassifyAcc where
  seen_event_ids : List Nat := []
  selling_fast_ids : List Nat := []
  sold_out_ids : List Nat := []
  deriving DecidableEq, Repr

/-- One iteration of `check_for_alerts`' loop: skip events already seen, otherwise
record the event's most recent transition bucket. -/
def classifyStep (acc : ClassifyAcc) (record : AvailabilityHistoryRow) : ClassifyAcc :=
  if acc.seen_event_ids.contains record.event_id then acc
  else
    let acc := { acc with seen_event_ids := record.event_id :: acc.seen_event_ids }
    if record.new_status == EventStatus.selling_fast then
      { acc with selling_fast_ids := record.event_id :: acc.selling_fast_ids }
    else if record.new_status == EventStatus.sold_out then
      { acc with sold_out_ids := record.event_id :: acc.sold_out_ids }
    else acc

/-- The `Event.start_date >= now` SQL filter (a `NULL` start date compares false). -/
def startNotPast (now : ℚ) (e : Event) : Bool :=
  match e.start_date with
  | some d => decide (d ≥ now)
  | none => false

/-- `SelloutMonitor.check_for_alerts` (`app/services/sellout_monitor.py`): take the
history rows with `recorded_at >= since` newest first, keep each event's most recent
transition, and load the matching future events.  The source's `ORDER BY` on the two
result lists only permutes them and is not embedded. -/
def check_for_alerts (events : List Event) (history : List AvailabilityHistoryRow)
    (since now : ℚ) : AlertResult :=
  let history_records := sortRecordedDesc
    (history.filter (fun r => decide (r.recorded_at ≥ since)))
  let acc := history_records.foldl classifyStep {}
  let newly_selling_fast :=
    if acc.selling_fast_ids.isEmpty then []
    else events.filter (fun e => acc.selling_fast_ids.contains e.id && startNotPast now e)
  let newly_sold_out :=
    if acc.sold_out_ids.isEmpty then []
    else events.filter (fun e => acc.sold_out_ids.contains e.id && startNotPast now e)
  { newly_selling_fast := newly_selling_fast, newly_sold_out := newly_sold_out }

/-- `SelloutMonitor.should_generate_alert` (`app/services/sellout_monitor.py`). -/
def should_generate_alert (s : Settings) (result : AlertResult) : Bool :=
  decide (result.newly_selling_fast.length ≥ s.sellout_alert_min_selling_fast) ||
    decide (result.newly_sold_out.length ≥ s.sellout_alert_min_sold_out)

/-- The Deduplicator's decision rule as the spec words it: among the existing
events, the first one with an exactly equal start timestamp, case-insensitive title
similarity strictly above 0.85 and venue similarity strictly above 0.75 wins, venue
similarity being 1.0 unless both the record and the candidate have a (non-empty)
venue name. -/
def specDedupDecision (sim : String → String → ℚ) (record : EventData)
    (events : List Event) : Option Event :=
  events.find? (fun e =>
    (e.start_date == record.start_date) &&
    decide (sim (record.title.getD "").toLower (e.title.getD "").toLower > 85 / 100) &&
    decide ((if pyTruthyStr record.venue_name && pyTruthyStr e.venue_name then
        sim (record.venue_name.getD "").toLower (e.venue_name.getD "").toLower
      else 1) > 75 / 100))

/-- The count the alert claim describes: events whose start date is not past and
whose most recent in-window transition (walking `recorded_at` newest first) is to
`st`. -/
def newlyCount (st : EventStatus) (events : List Event)
    (history : List AvailabilityHistoryRow) (since now : ℚ) : Nat :=
  (events.filter (fun e =>
    startNotPast now e &&
      (((sortRecordedDesc (history.filter (fun r => decide (r.recorded_at ≥ since)))).find?
          (fun rec => rec.event_id == e.id)).map AvailabilityHistoryRow.new_status ==
        some st))).length

/-- The three future events of the worked alert example. -/
def monitorExampleEvents : List Event :=
  [{ id := 1, start_date := some 1000 }, { id := 2, start_date := some 1000 },
   { id := 3, start_date := some 1000 }]

/-- History giving two newly sold-out events and zero newly selling-fast (event 1's
older selling-fast transition is shadowed by its latest sold-out one). -/
def monitorExampleHistoryTwo : List AvailabilityHistoryRow :=
  [{ event_id := 1, previous_status := .selling_fast, new_status := .sold_out,
     recorded_at := 50 },
   { event_id := 1, previous_status := .on_sale, new_status := .selling_fast,
     recorded_at := 10 },
   { event_id := 2, previous_status := .on_sale, new_status := .sold_out,
     recorded_at := 40 }]

/-- The same history with a third sold-out transition. -/
def monitorExampleHistoryThree : List AvailabilityHistoryRow :=
  monitorExampleHistoryTwo ++
    [{ event_id := 3, previous_status := .upcoming, new_status := .sold_out,
       recorded_at := 30 }]

/-- When the sold-out and cancellation guards are off and the percentage rule
fires, `determine_status` answers `selling_fast`. -/
lemma determine_status_selling_fast_of_percentage (s : Settings) (now : ℚ)
    (tickets_available total_tickets : Option Nat) (on_sale_status : Option String)
    (previous_availability : Option Nat) (last_check event_date : Option ℚ)
    (h0 : (tickets_available == some 0) = false)
    (hso : osIn on_sale_status soldOutSpellings = false)
    (hc : osIn on_sale_status cancelledSpellings = false)
    (hp : percentageRuleFires s tickets_available total_tickets = true) :
    determine_status s now tickets_available total_tickets on_sale_status
      previous_availability last_check event_date = .selling_fast := by
  simp [determine_status, h0, hso, hc, hp]

/-- `find?` after `filter` is `find?` of the conjunction. -/
lemma findFirstOfFilter (l : List α) (p q : α → Bool) :
    (l.filter p).find? q = l.find? (fun a => p a && q a) := by
  induction l with
  | nil => rfl
  | cons x xs ih =>
      by_cases h : p x = true
      · by_cases h2 : q x = true
        · simp [List.filter_cons, h, List.find?, h2]
        · simp [List.filter_cons, h, List.find?, h2, ih]
      · simp [List.filter_cons, h, List.find?, ih]

/-- No branch of the per-record ingestion step writes to the history table. -/
lemma processOneEvent_history (sim : String → String → ℚ) (s : Settings) (now : ℚ)
    (source_name : String) (st : IngestState) (event_data : EventData) :
    (processOneEvent sim s now source_name st event_data).1.history = st.history := by
  simp only [processOneEvent]
  cases st.events.find? (sameProvenance source_name event_data) with
  | some e => rfl
  | none =>
      cases _find_duplicate sim event_data st.events with
      | some e => rfl
      | none => rfl

/-- The batch fold of `_process_events` keeps the history table of its accumulator. -/
lemma processEventsAux_history (sim : String → String → ℚ) (s : Settings) (now : ℚ)
    (source_name : String) (events : List EventData) (acc : IngestState × Nat) :
    (events.foldl
      (fun acc event_data =>
        let step := processOneEvent sim s now source_name acc.1 event_data
        (step.1, acc.2 + step.2)) acc).1.history = acc.1.history := by
  induction events generalizing acc with
  | nil => rfl
  | cons r rs ih =>
      rw [List.foldl_cons, ih]
      exact processOneEvent_history sim s now source_name acc.1 r

/-- An unseen event id is added to `seen_event_ids` by `classifyStep`. -/
lemma classifyStep_seen (acc : ClassifyAcc) (rec : AvailabilityHistoryRow)
    (hseen : acc.seen_event_ids.contains rec.event_id = false) :
    (classifyStep acc rec).seen_event_ids = rec.event_id :: acc.seen_event_ids := by
  unfold classifyStep
  rw [if_neg (by simpa using hseen)]
  split
  · rfl
  · split <;> rfl

/-- Membership in `selling_fast_ids` after one `classifyStep` on an unseen record. -/
lemma classifyStep_selling_fast (acc : ClassifyAcc) (rec : AvailabilityHistoryRow)
    (hseen : acc.seen_event_ids.contains rec.event_id = false) (eid : Nat) :
    eid ∈ (classifyStep acc rec).selling_fast_ids ↔
      (rec.new_status = EventStatus.selling_fast ∧ eid = rec.event_id) ∨
        eid ∈ acc.selling_fast_ids := by
  unfold classifyStep
  rw [if_neg (by simpa using hseen)]
  cases hst : rec.new_status <;> simp [hst]

/-- Membership in `sold_out_ids` after one `classifyStep` on an unseen record. -/
lemma classifyStep_sold_out (acc : ClassifyAcc) (rec : AvailabilityHistoryRow)
    (hseen : acc.seen_event_ids.contains rec.event_id = false) (eid : Nat) :
    eid ∈ (classifyStep acc rec).sold_out_ids ↔
      (rec.new_status = EventStatus.sold_out ∧ eid = rec.event_id) ∨
        eid ∈ acc.sold_out_ids := by
  unfold classifyStep
  rw [if_neg (by simpa using hseen)]
  cases hst : rec.new_status <;> simp [hst]

/-- An event id lands in `selling_fast_ids` of the monitor's fold exactly when its
first record in the walked list (the most recent in-window transition) is a
transition to `selling_fast`. -/
lemma mem_classify_selling_fast (l : List AvailabilityHistoryRow) (acc : ClassifyAcc)
    (eid : Nat) :
    eid ∈ (l.foldl classifyStep acc).selling_fast_ids ↔
      eid ∈ acc.selling_fast_ids ∨
        (eid ∉ acc.seen_event_ids ∧
          (l.find? (fun rec => rec.event_id == eid)).map
            AvailabilityHistoryRow.new_status = some EventStatus.selling_fast) := by
  induction l generalizing acc with
  | nil => simp
  | cons rec rs ih =>
      rw [List.foldl_cons, ih]
      by_cases hseen : acc.seen_event_ids.contains rec.event_id = true
      · have hseenm : rec.event_id ∈ acc.seen_event_ids := by
          simpa using hseen
        have hstep : classifyStep acc rec = acc := by
          unfold classifyStep
          rw [if_pos hseen]
        rw [hstep]
        by_cases heq : rec.event_id = eid
        · subst heq
          simp [hseenm]
        · rw [List.find?_cons_of_neg _ (by simp [heq])]
      · have hseenm : rec.event_id ∉ acc.seen_event_ids := by
          simpa using hseen
        have hb : acc.seen_event_ids.contains rec.event_id = false := by
          simpa using hseen
        by_cases heq : rec.event_id = eid
        · subst heq
          rw [List.find?_cons_of_pos _ (by simp)]
          rw [classifyStep_selling_fast acc rec hb, classifyStep_seen acc rec hb]
          simp [hseenm]
          tauto
        · rw [List.find?_cons_of_neg _ (by simp [heq])]
          rw [classifyStep_selling_fast acc rec hb, classifyStep_seen acc rec hb]
          have : eid ≠ rec.event_id := fun h => heq h.symm
          simp [this]

/-- An event id lands in `sold_out_ids` of the monitor's fold exactly when its
first record in the walked list is a transition to `sold_out`. -/
lemma mem_classify_sold_out (l : List AvailabilityHistoryRow) (acc : ClassifyAcc)
    (eid : Nat) :
    eid ∈ (l.foldl classifyStep acc).sold_out_ids ↔
      eid ∈ acc.sold_out_ids ∨
        (eid ∉ acc.seen_event_ids ∧
          (l.find? (fun rec => rec.event_id == eid)).map
            AvailabilityHistoryRow.new_status = some EventStatus.sold_out) := by
  induction l generalizing acc with
  | nil => simp
  | cons rec rs ih =>
      rw [List.foldl_cons, ih]
      by_cases hseen : acc.seen_event_ids.contains rec.event_id = true
      · have hseenm : rec.event_id ∈ acc.seen_event_ids := by
          simpa using hseen
        have hstep : classifyStep acc rec = acc := by
          unfold classifyStep
          rw [if_pos hseen]
        rw [hstep]
        by_cases heq : rec.event_id = eid
        · subst heq
          simp [hseenm]
        · rw [List.find?_cons_of_neg _ (by simp [heq])]
      · have hseenm : rec.event_id ∉ acc.seen_event_ids := by
          simpa using hseen
        have hb : acc.seen_event_ids.contains rec.event_id = false := by
          simpa using hseen
        by_cases heq : rec.event_id = eid
        · subst heq
          rw [List.find?_cons_of_pos _ (by simp)]
          rw [classifyStep_sold_out acc rec hb, classifyStep_seen acc rec hb]
          simp [hseenm]
          tauto
        · rw [List.find?_cons_of_neg _ (by simp [heq])]
          rw [classifyStep_sold_out acc rec hb, classifyStep_seen acc rec hb]
          have : eid ≠ rec.event_id := fun h => heq h.symm
          simp [this]

/-- The monitor's `newly_selling_fast` list counts exactly the future events whose
most recent in-window transition is to `selling_fast`. -/
lemma check_newly_selling_fast_length (events : List Event)
    (history : List AvailabilityHistoryRow) (since now : ℚ) :
    (check_for_alerts events history since now).newly_selling_fast.length =
      newlyCount EventStatus.selling_fast events history since now := by
  simp only [check_for_alerts, newlyCount]
  set sorted := sortRecordedDesc
    (history.filter (fun r => decide (r.recorded_at ≥ since))) with hsorted
  set acc := sorted.foldl classifyStep {} with hacc
  have key : ∀ e : Event, acc.selling_fast_ids.contains e.id =
      (((sorted.find? (fun rec => rec.event_id == e.id)).map
        AvailabilityHistoryRow.new_status) == some EventStatus.selling_fast) := by
    intro e
    have h := mem_classify_selling_fast sorted {} e.id
    rw [Bool.eq_iff_iff]
    simp only [← hacc] at h
    simp [h]
  by_cases hempty : acc.selling_fast_ids.isEmpty
  · rw [if_pos hempty]
    have : ∀ e ∈ events,
        (startNotPast now e &&
          (((sorted.find? (fun rec => rec.event_id == e.id)).map
            AvailabilityHistoryRow.new_status) == some EventStatus.selling_fast)) =
          false := by
      intro e _
      rw [← key e]
      have : acc.selling_fast_ids = [] := List.isEmpty_iff.mp hempty
      simp [this]
    rw [List.filter_eq_nil_iff.mpr (by intro a ha; simp [this a ha])]
  · rw [if_neg hempty]
    congr 1
    apply List.filter_congr
    intro e _
    rw [← key e, Bool.and_comm]

/-- The monitor's `newly_sold_out` list counts exactly the future events whose most
recent in-window transition is to `sold_out`. -/
lemma check_newly_sold_out_length (events : List Event)
    (history : List AvailabilityHistoryRow) (since now : ℚ) :
    (check_for_alerts events history since now).newly_sold_out.length =
      newlyCount EventStatus.sold_out events history since now := by
  simp only [check_for_alerts, newlyCount]
  set sorted := sortRecordedDesc
    (history.filter (fun r => decide (r.recorded_at ≥ since))) with hsorted
  set acc := sorted.foldl classifyStep {} with hacc
  have key : ∀ e : Event, acc.sold_out_ids.contains e.id =
      (((sorted.find? (fun rec => rec.event_id == e.id)).map
        AvailabilityHistoryRow.new_status) == some EventStatus.sold_out) := by
    intro e
    have h := mem_classify_sold_out sorted {} e.id
    rw [Bool.eq_iff_iff]
    simp only [← hacc] at h
    simp [h]
  by_cases hempty : acc.sold_out_ids.isEmpty
  · rw [if_pos hempty]
    have : ∀ e ∈ events,
        (startNotPast now e &&
          (((sorted.find? (fun rec => rec.event_id == e.id)).map
            AvailabilityHistoryRow.new_status) == some EventStatus.sold_out)) =
          false := by
      intro e _
      rw [← key e]
      have : acc.sold_out_ids = [] := List.isEmpty_iff.mp hempty
      simp [this]
    rw [List.filter_eq_nil_iff.mpr (by intro a ha; simp [this a ha])]
  · rw [if_neg hempty]
    congr 1
    apply List.filter_congr
    intro e _
    rw [← key e, Bool.and_comm]

/-- Claim C1: the claim (and the spec) require each ingestion update whose computed
status differs from the stored one to append exactly one `AvailabilityHistory` row
before overwriting the status.  The code writes no such row: no code under the
repository ever constructs one (the model class itself is absent from
`models/database.py` although `sellout_monitor.py` imports and queries it), so
`_process_events` leaves the history table untouched even on the concrete
transition below, where the stored status `upcoming` is overwritten with
`sold_out` and zero rows are appended instead of one. -/
theorem C1_no_availability_history_is_ever_appended :
    (∀ (sim : String → String → ℚ) (s : Settings) (now : ℚ) (source_name : String)
      (events : List EventData) (st : IngestState),
      (_process_events sim s now source_name events st).1.history = st.history)
    ∧ ((_process_events (fun _ _ => 0) defaultSettings 0 "src"
          [{ title := some "T", start_date := some 100, source_name := some "src",
             source_id := some "e1", tickets_available := some 0 }]
          { events := [{ id := 1, title := some "T", start_date := some 100,
                         source_name := some "src", source_id := some "e1",
                         status := .upcoming }],
            history := [] }).1.history.length = 0
        ∧ ((_process_events (fun _ _ => 0) defaultSettings 0 "src"
            [{ title := some "T", start_date := some 100, source_name := some "src",
               source_id := some "e1", tickets_available := some 0 }]
            { events := [{ id := 1, title := some "T", start_date := some 100,
                           source_name := some "src", source_id := some "e1",
                           status := .upcoming }],
              history := [] }).1.events.map Event.status) = [.sold_out]) := by
  refine ⟨?_, by decide, by decide⟩
  intro sim s now source_name events st
  exact processEventsAux_history sim s now source_name events (st, 0)

/-- Claim C2: for a record with a start date, `_find_duplicate` is exactly the
spec's decision — the first existing event with an exactly equal start timestamp,
case-insensitive title similarity above 0.85 and venue similarity above 0.75 (1.0
unless both sides have a venue name) wins; a match exists precisely when some
candidate satisfies that conjunction; and an event with a different start
timestamp is never returned, whatever its title and venue similarity. -/
theorem C2_dedup_decision (sim : String → String → ℚ) (event_data : EventData)
    (events : List Event) (d : ℚ) (hstart : event_data.start_date = some d) :
    (_find_duplicate sim event_data events = specDedupDecision sim event_data events)
    ∧ ((_find_duplicate sim event_data events).isSome ↔
        ∃ e ∈ events, e.start_date = some d ∧ dupCandidateMatches sim event_data e = true)
    ∧ (∀ e ∈ events, e.start_date ≠ some d →
        _find_duplicate sim event_data events ≠ some e) := by
  have hfuse : _find_duplicate sim event_data events =
      events.find? (fun e =>
        (e.start_date == event_data.start_date) &&
          dupCandidateMatches sim event_data e) := by
    simp only [_find_duplicate]
    exact findFirstOfFilter events _ _
  refine ⟨?_, ?_, ?_⟩
  · rw [hfuse]
    simp only [specDedupDecision]
    congr 1
    funext e
    simp [dupCandidateMatches, Bool.and_assoc]
  · rw [hfuse, List.find?_isSome]
    constructor
    · rintro ⟨e, he, hp⟩
      simp only [Bool.and_eq_true, beq_iff_eq] at hp
      exact ⟨e, he, by rw [hp.1, hstart], hp.2⟩
    · rintro ⟨e, he, hd, hm⟩
      exact ⟨e, he, by simp [hd, hstart, hm]⟩
  · intro e he hne hfound
    rw [hfuse] at hfound
    have := List.find?_some hfound
    simp only [Bool.and_eq_true, beq_iff_eq] at this
    exact hne (this.1.trans hstart)

/-- Witness for C2 at a concrete similarity function, record and store. -/
theorem C2_witness :
    (({ title := some "Same Event", start_date := some 5,
        source_name := some "b", source_id := some "1" } : EventData).start_date = some 5)
    ∧ _find_duplicate (fun a b => if a == b then 1 else 0)
        ({ title := some "Same Event", start_date := some 5,
           source_name := some "b", source_id := some "1" } : EventData)
        [{ id := 1, title := some "Same Event", start_date := some 5 }] =
      specDedupDecision (fun a b => if a == b then 1 else 0)
        ({ title := some "Same Event", start_date := some 5,
           source_name := some "b", source_id := some "1" } : EventData)
        [{ id := 1, title := some "Same Event", start_date := some 5 }] := by
  refine ⟨rfl, ?_⟩
  exact (C2_dedup_decision (fun a b => if a == b then 1 else 0) _ _ 5 rfl).1

/-- Claim C3 counterexample: the claim says every optional field is overwritten
exactly when the incoming value is non-null, but an incoming `price_min` of `0.0`
is non-null and still loses to the stored `10.0` — `_update_event` uses Python
`or`, which treats the falsy `0.0` like an omission. -/
theorem C3_counterexample_zero_price_not_written :
    (({ title := some "a", price_min := some 0 } : EventData).price_min = some 0)
    ∧ (_update_event defaultSettings 0
        ({ title := some "a", price_min := some 10 } : Event)
        ({ title := some "a", price_min := some 0 } : EventData)).price_min =
          some 10 := by
  exact ⟨rfl, by decide⟩

/-- Claim C3 as amended: required scalars (title, start date, end date) are always
overwritten, and each optional field is overwritten exactly when the incoming value
is truthy in Python's sense — non-null and not an empty string or a zero number
(a datetime is truthy whenever non-null) — and left unchanged otherwise. -/
theorem C3_amended_update_policy (s : Settings) (now : ℚ) (event : Event)
    (event_data : EventData) :
    (_update_event s now event event_data).title = event_data.title
    ∧ (_update_event s now event event_data).start_date = event_data.start_date
    ∧ (_update_event s now event event_data).end_date = event_data.end_date
    ∧ (_update_event s now event event_data).description =
        (if pyTruthyStr event_data.description then event_data.description
          else event.description)
    ∧ (_update_event s now event event_data).venue_name =
        (if pyTruthyStr event_data.venue_name then event_data.venue_name
          else event.venue_name)
    ∧ (_update_event s now event event_data).venue_address =
        (if pyTruthyStr event_data.venue_address then event_data.venue_address
          else event.venue_address)
    ∧ (_update_event s now event event_data).ticket_url =
        (if pyTruthyStr event_data.ticket_url then event_data.ticket_url
          else event.ticket_url)
    ∧ (_update_event s now event event_data).price_min =
        (if pyTruthyNum event_data.price_min then event_data.price_min
          else event.price_min)
    ∧ (_update_event s now event event_data).price_max =
        (if pyTruthyNum event_data.price_max then event_data.price_max
          else event.price_max)
    ∧ (_update_event s now event event_data).on_sale_date =
        (if event_data.on_sale_date.isSome then event_data.on_sale_date
          else event.on_sale_date)
    ∧ (_update_event s now event event_data).on_sale_status =
        (if pyTruthyStr event_data.on_sale_status then event_data.on_sale_status
          else event.on_sale_status)
    ∧ (_update_event s now event event_data).image_url =
        (if pyTruthyStr event_data.image_url then event_data.image_url
          else event.image_url) := by
  simp only [_update_event, pyOrStr, pyOrNum, pyOrDate]
  split <;> simp

/-- Claim C4: over any settings, event table and history table, the monitor fires
an alert exactly when the number of future events newly selling fast (counting only
each event's most recent in-window transition) reaches the configured minimum, or
the number newly sold out reaches its separate minimum; with the default minima
(1 selling fast, 3 sold out), the worked example with 0 newly-selling-fast and 2
newly-sold-out fires no alert, and the one with 3 newly-sold-out fires one. -/
theorem C4_alert_iff_thresholds :
    (∀ (s : Settings) (events : List Event) (history : List AvailabilityHistoryRow)
      (since now : ℚ),
      should_generate_alert s (check_for_alerts events history since now) = true ↔
        (newlyCount EventStatus.selling_fast events history since now ≥
            s.sellout_alert_min_selling_fast ∨
          newlyCount EventStatus.sold_out events history since now ≥
            s.sellout_alert_min_sold_out))
    ∧ should_generate_alert defaultSettings
        (check_for_alerts monitorExampleEvents monitorExampleHistoryTwo 0 0) = false
    ∧ should_generate_alert defaultSettings
        (check_for_alerts monitorExampleEvents monitorExampleHistoryThree 0 0) = true := by
  refine ⟨?_, by decide, by decide⟩
  intro s events history since now
  simp only [should_generate_alert, check_newly_selling_fast_length,
    check_newly_sold_out_length, Bool.or_eq_true, decide_eq_true_eq]

/-- Claim C5: a record failing `validate_event` (missing title, start date or
provenance) is silently dropped by the adapter's fetch loop — the whole source
cycle produces the same state as if the record had never been fetched, so no Event
is created or updated for it — and the fetch is still tracked as a success: the
tracking row has its error cleared and its success timestamp stamped. -/
theorem C5_invalid_record_dropped_fetch_still_success
    (sim : String → String → ℚ) (s : Settings) (now : ℚ)
    (source_name source_type : String) (st : IngestState)
    (tracking : Option DataSourceRow) (fetch_duration : ℚ)
    (pre post : List EventData) (r : EventData)
    (h : validate_event r = false) :
    (fetchOneSourceOk sim s now source_name source_type (pre ++ r :: post) st
        tracking fetch_duration =
      fetchOneSourceOk sim s now source_name source_type (pre ++ post) st
        tracking fetch_duration)
    ∧ r ∉ adapterCollectValid (pre ++ r :: post)
    ∧ (fetchOneSourceOk sim s now source_name source_type (pre ++ r :: post) st
        tracking fetch_duration).2.1.last_error = none
    ∧ (fetchOneSourceOk sim s now source_name source_type (pre ++ r :: post) st
        tracking fetch_duration).2.1.last_successful_fetch = some now := by
  have hcollect : adapterCollectValid (pre ++ r :: post) =
      adapterCollectValid (pre ++ post) := by
    simp [adapterCollectValid, List.filter_append, List.filter_cons, h]
  refine ⟨?_, ?_, ?_, ?_⟩
  · simp only [fetchOneSourceOk, hcollect]
  · intro hmem
    have := List.of_mem_filter hmem
    rw [h] at this
    exact Bool.false_ne_true this
  · simp [fetchOneSourceOk, _update_source_tracking]
  · simp [fetchOneSourceOk, _update_source_tracking]

/-- Witness for C5: a record with no title is dropped by a concrete cycle. -/
theorem C5_witness :
    (validate_event { start_date := some 1, source_name := some "s",
                      source_id := some "r1" } = false)
    ∧ fetchOneSourceOk (fun _ _ => 0) defaultSettings 0 "s" "api"
        ([] ++ ({ start_date := some 1, source_name := some "s",
                  source_id := some "r1" } : EventData) :: []) {} none 1 =
      fetchOneSourceOk (fun _ _ => 0) defaultSettings 0 "s" "api" ([] ++ []) {} none 1 := by
  refine ⟨rfl, ?_⟩
  exact (C5_invalid_record_dropped_fetch_still_success (fun _ _ => 0) defaultSettings 0
    "s" "api" {} none 1 [] []
    ({ start_date := some 1, source_name := some "s", source_id := some "r1" } : EventData)
    rfl).1

/-- Claim C6: with previous availability 200, current 100, one day since the prior
check and the event fourteen days away (and no sold-out, cancellation or percentage
signal), `determine_status` answers `selling_fast` — velocity 100 a day, one day to
sellout; and whenever the computed velocity `(previous − current) / days elapsed`
is not strictly positive, `_is_selling_fast_by_rate` never fires. -/
theorem C6_velocity_rule :
    (determine_status defaultSettings 0 (some 100) none none (some 200)
      (some (-86400)) (some 1209600) = .selling_fast)
    ∧ ∀ (current_available previous_available : Nat)
        (time_since_check time_until_event : ℚ),
        ((previous_available : ℚ) - (current_available : ℚ)) /
            (time_since_check / 86400) ≤ 0 →
        _is_selling_fast_by_rate current_available previous_available
          time_since_check time_until_event = false := by
  constructor
  · norm_num [determine_status, percentageRuleFires, rateRuleFires,
      _is_selling_fast_by_rate, osIn, pyTruthyStr, soldOutSpellings,
      cancelledSpellings, defaultSettings]
  · intro current previous tsc tue h
    simp only [_is_selling_fast_by_rate]
    split_ifs with h1 h2 h3 h4 h5 h6 <;> try rfl
    · exact absurd h4 (not_lt.mpr h)
    · exact absurd h4 (not_lt.mpr h)

/-- Witness for C6's velocity hypothesis: rising availability gives a non-positive
velocity and the rate rule stays off. -/
theorem C6_witness :
    ((50 : ℚ) - (100 : ℚ)) / ((86400 : ℚ) / 86400) ≤ 0 ∧
      _is_selling_fast_by_rate 100 50 86400 604800 = false := by
  refine ⟨by norm_num, ?_⟩
  exact C6_velocity_rule.2 100 50 86400 604800 (by norm_num)

/-- Claim C7: with both counts known, a positive total and no sold-out or
cancellation signal, an availability percentage exactly equal to the configured
threshold yields `selling_fast` (the boundary is inclusive), and a raw count at or
below the configured absolute threshold also yields `selling_fast`. -/
theorem C7_threshold_boundaries_selling_fast (s : Settings) (now : ℚ) (a t : Nat)
    (on_sale_status : Option String) (previous_availability : Option Nat)
    (last_check event_date : Option ℚ)
    (ha : a ≠ 0) (ht : 0 < t)
    (hso : osIn on_sale_status soldOutSpellings = false)
    (hc : osIn on_sale_status cancelledSpellings = false) :
    (((a : ℚ) / (t : ℚ)) * 100 = (s.sellout_threshold_percentage : ℚ) →
      determine_status s now (some a) (some t) on_sale_status
        previous_availability last_check event_date = .selling_fast)
    ∧ (a ≤ s.low_availability_threshold →
      determine_status s now (some a) (some t) on_sale_status
        previous_availability last_check event_date = .selling_fast) := by
  constructor
  · intro hpct
    refine determine_status_selling_fast_of_percentage _ _ _ _ _ _ _ _ ?_ hso hc ?_
    · simpa using ha
    · simp [percentageRuleFires, ht]
      exact Or.inl (le_of_eq hpct)
  · intro hlow
    refine determine_status_selling_fast_of_percentage _ _ _ _ _ _ _ _ ?_ hso hc ?_
    · simpa using ha
    · simp [percentageRuleFires, ht]
      exact Or.inr hlow

/-- Witness for C7 at the defaults: 10 of 100 tickets is exactly the 10 percent
threshold (and also at most the 50-ticket absolute threshold). -/
theorem C7_witness :
    (10 : Nat) ≠ 0 ∧ 0 < (100 : Nat) ∧
      determine_status defaultSettings 0 (some 10) (some 100) none none none none =
        .selling_fast := by
  refine ⟨by decide, by decide, ?_⟩
  exact (C7_threshold_boundaries_selling_fast defaultSettings 0 10 100 none none none none
    (by decide) (by decide) (by decide) (by decide)).1 (by norm_num [defaultSettings])

/-- Claim C8: a `tickets_available` of zero always yields `sold_out`, whatever the
sale-status string and every other input — including a cancellation spelling. -/
theorem C8_zero_tickets_always_sold_out :
    (∀ (s : Settings) (now : ℚ) (total_tickets : Option Nat)
      (on_sale_status : Option String) (previous_availability : Option Nat)
      (last_check event_date : Option ℚ),
      determine_status s now (some 0) total_tickets on_sale_status
        previous_availability last_check event_date = .sold_out)
    ∧ determine_status defaultSettings 0 (some 0) (some 100) (some "cancelled")
        (some 5) (some 1) (some 2) = .sold_out := by
  constructor
  · intro s now tt os prev lc ed
    simp [determine_status]
  · decide

/-- Claim C9: when the incoming record carries no `tickets_available`, the whole
availability block is skipped — status, ticket counts, availability percentage and
last-check stamp all keep their stored values, and no status is recomputed even if
the incoming sale-status string is a sold-out or cancellation spelling. -/
theorem C9_no_ticket_count_freezes_availability (s : Settings) (now : ℚ)
    (event : Event) (event_data : EventData)
    (h : event_data.tickets_available = none) :
    (_update_event s now event event_data).status = event.status
    ∧ (_update_event s now event event_data).tickets_available = event.tickets_available
    ∧ (_update_event s now event event_data).total_tickets = event.total_tickets
    ∧ (_update_event s now event event_data).availability_percentage =
        event.availability_percentage
    ∧ (_update_event s now event event_data).last_availability_check =
        event.last_availability_check := by
  simp [_update_event, h]

/-- Witness for C9: an incoming record whose sale-status string is a sold-out
spelling but whose ticket count is `None` leaves the stored `on_sale` status. -/
theorem C9_witness :
    (({ on_sale_status := some "sold_out" } : EventData).tickets_available = none)
    ∧ (_update_event defaultSettings 0 ({ status := .on_sale, tickets_available := some 70 } : Event)
        ({ on_sale_status := some "sold_out" } : EventData)).status = .on_sale := by
  refine ⟨rfl, ?_⟩
  have h := C9_no_ticket_count_freezes_availability defaultSettings 0
    ({ status := .on_sale, tickets_available := some 70 } : Event)
    ({ on_sale_status := some "sold_out" } : EventData) rfl
  exact h.1

/-- Claim C10: `_calculate_availability_percentage` returns `None` exactly when
either count is `None` or zero and otherwise a strictly positive value — the
`total_tickets == 0` branch returning `0.0` is unreachable, so the function never
returns `0.0` — and hence the availability percentage stored by `_create_event`,
and preserved or rewritten by `_update_event`, is always `None` or strictly
positive. -/
theorem C10_availability_percentage_none_or_positive :
    (∀ tickets_available total_tickets : Option Nat,
      (_calculate_availability_percentage tickets_available total_tickets = none ↔
        tickets_available = none ∨ tickets_available = some 0 ∨
          total_tickets = none ∨ total_tickets = some 0)
      ∧ ∀ q : ℚ, _calculate_availability_percentage tickets_available total_tickets =
          some q → 0 < q)
    ∧ (∀ (s : Settings) (now : ℚ) (newId : Nat) (event_data : EventData),
        ∀ q : ℚ, (_create_event s now newId event_data).availability_percentage =
          some q → 0 < q)
    ∧ (∀ (s : Settings) (now : ℚ) (event : Event) (event_data : EventData),
        (∀ q : ℚ, event.availability_percentage = some q → 0 < q) →
        ∀ q : ℚ, (_update_event s now event event_data).availability_percentage =
          some q → 0 < q) := by
  have main : ∀ tickets_available total_tickets : Option Nat,
      (_calculate_availability_percentage tickets_available total_tickets = none ↔
        tickets_available = none ∨ tickets_available = some 0 ∨
          total_tickets = none ∨ total_tickets = some 0)
      ∧ ∀ q : ℚ, _calculate_availability_percentage tickets_available total_tickets =
          some q → 0 < q := by
    intro ta tt
    match ta, tt with
    | none, tt => simp [_calculate_availability_percentage, pyTruthyNat]
    | some 0, tt => simp [_calculate_availability_percentage, pyTruthyNat]
    | some (a + 1), none => simp [_calculate_availability_percentage, pyTruthyNat]
    | some (a + 1), some 0 => simp [_calculate_availability_percentage, pyTruthyNat]
    | some (a + 1), some (t + 1) =>
        constructor
        · simp [_calculate_availability_percentage, pyTruthyNat]
        · intro q hq
          simp [_calculate_availability_percentage, pyTruthyNat] at hq
          subst hq
          positivity
  refine ⟨main, ?_, ?_⟩
  · intro s now newId r q hq
    simp only [_create_event] at hq
    exact (main r.tickets_available r.total_tickets).2 q hq
  · intro s now e r he q hq
    by_cases h : r.tickets_available.isSome
    · simp only [_update_event, h, if_true] at hq
      exact (main r.tickets_available _).2 q hq
    · simp only [_update_event, h, if_false] at hq
      exact he q hq

/-- Witness for C10: one ticket of four gives the strictly positive 25 percent. -/
theorem C10_witness :
    0 < (25 : ℚ) :=
  (C10_availability_percentage_none_or_positive.1 (some 1) (some 4)).2 25
    (by norm_num [_calculate_availability_percentage, pyTruthyNat])
